import Mathlib

set_option maxRecDepth 10000

/-!
Shallow embedding of the Tricorder-Control prop firmware:

* `Poly` embeds `src/firmware/polyinoculator/src/main.cpp` — the sACN
  (E1.31) DMX receiver, its priority arbitration against UDP commands,
  and the UDP LED command handlers.
* `Tri` embeds `src/firmware/src/main.cpp` — the tricorder LED task
  command handler, the network command dispatcher, and the JPEG frame
  playback state machine including the directory frame-list builder.

Machine bytes are modelled as `Nat` (values below 256), C `int` values as
`Int`, and C arrays / queues as Lean lists.  All definitions are
executable; theorems about them follow at the end of the file.
-/

/-- An RGB color, the model of a `CRGB` cell: (r, g, b) byte values. -/
abbrev Color := Nat × Nat × Nat

/-- Model of the implicit `int → uint8_t` conversions done by the `CRGB`
constructor: each channel is truncated modulo 256 (two's complement). -/
def mkCRGB (r g b : Int) : Color := ((r % 256).toNat, (g % 256).toNat, (b % 256).toNat)

/-- Arduino `constrain(amt, low, high)`:
`amt < low ? low : (amt > high ? high : amt)`. -/
def constrain (amt low high : Int) : Int :=
  if amt < low then low else if amt > high then high else amt

namespace Poly

/-- `NUM_LEDS_1` (strip 1 length). -/
def NUM_LEDS_1 : Nat := 14

/-- `NUM_LEDS_2` (strip 2 length). -/
def NUM_LEDS_2 : Nat := 8

/-- `NUM_LEDS_3` (strip 3 length). -/
def NUM_LEDS_3 : Nat := 8

/-- `TOTAL_LEDS` (30 = 14 + 8 + 8). -/
def TOTAL_LEDS : Nat := 30

/-- `E131_DATA_OFFSET` (DMX payload starts at byte 126). -/
def E131_DATA_OFFSET : Nat := 126

/-- `E131_UNIVERSE_OFFSET` (big-endian universe field at bytes 113-114). -/
def E131_UNIVERSE_OFFSET : Nat := 113

/-- `E131_PACKET_SIZE` (at most 638 bytes of a packet are read). -/
def E131_PACKET_SIZE : Nat := 638

/-- The 12 bytes of `ACN_PACKET_IDENTIFIER` = "ASC-E1.17\0\0\0". -/
def ACN_PACKET_IDENTIFIER : List Nat :=
  [65, 83, 67, 45, 69, 49, 46, 49, 55, 0, 0, 0]

/-- The global mutable state of the polyinoculator firmware that the
claims touch: the three LED strip arrays, the current color, brightness,
the sACN state variables and the configured universe / start address. -/
structure PolyState where
  leds1 : List Color
  leds2 : List Color
  leds3 : List Color
  currentColor : Color
  ledBrightness : Int
  wifiConnected : Bool
  sacnEnabled : Bool
  sacnActive : Bool
  sacnPriority : Bool
  lastSacnPacket : Nat
  sacnSequence : Nat
  lastSacnData : List Nat
  sacnUniverse : Nat
  sacnStartAddress : Nat
  deriving DecidableEq, Repr

/-- All 30 fixture colors in strip order (strip 1, then 2, then 3),
i.e. the LED state addressed by the global fixture index. -/
def ledsAll (s : PolyState) : List Color := s.leds1 ++ s.leds2 ++ s.leds3

/-- One strip update loop of `updateLEDsFromDMX`: LED `i` of the strip
reads `dmxData[base + i*3 + 0..2]` as R, G, B. -/
def stripFromDMX (dmx : List Nat) (base count : Nat) : List Color :=
  (List.range count).map fun i =>
    (dmx.getD (base + i * 3) 0, dmx.getD (base + i * 3 + 1) 0, dmx.getD (base + i * 3 + 2) 0)

/-- `updateLEDsFromDMX(dmxData)`: no-op unless `sacnEnabled && sacnPriority`;
otherwise rewrites the three strips from the DMX data starting at
`dmxIndex = sacnStartAddress - 1`, advancing by 3 channels per LED. -/
def updateLEDsFromDMX (dmx : List Nat) (s : PolyState) : PolyState :=
  if !s.sacnEnabled || !s.sacnPriority then s
  else
    let dmxIndex := s.sacnStartAddress - 1
    { s with
      leds1 := stripFromDMX dmx dmxIndex NUM_LEDS_1
      leds2 := stripFromDMX dmx (dmxIndex + NUM_LEDS_1 * 3) NUM_LEDS_2
      leds3 := stripFromDMX dmx (dmxIndex + NUM_LEDS_1 * 3 + NUM_LEDS_2 * 3) NUM_LEDS_3 }

/-- `processSACNPacket(packet, length)`: validates minimum length, the
12-byte ACN identifier at offset 4, and the big-endian universe at
offset 113; records the sequence byte; then, if the DMX payload covers
`sacnStartAddress + TOTAL_LEDS*3` bytes, stores the payload in
`lastSacnData`, updates the LEDs and returns `true`, else returns
`false`. -/
def processSACNPacket (packet : List Nat) (s : PolyState) : Bool × PolyState :=
  if packet.length < E131_DATA_OFFSET then (false, s)
  else if (packet.drop 4).take 12 ≠ ACN_PACKET_IDENTIFIER then (false, s)
  else
    let universeField := packet.getD E131_UNIVERSE_OFFSET 0 * 256 + packet.getD (E131_UNIVERSE_OFFSET + 1) 0
    if universeField ≠ s.sacnUniverse then (false, s)
    else
      let sequence := packet.getD 111 0
      let s1 := { s with sacnSequence := sequence }
      let dmxData := packet.drop E131_DATA_OFFSET
      let dmxLength := packet.length - E131_DATA_OFFSET
      if s.sacnStartAddress + TOTAL_LEDS * 3 ≤ dmxLength then
        let s2 := { s1 with
          lastSacnData := dmxData.take (min dmxLength 512) ++ s1.lastSacnData.drop (min dmxLength 512) }
        (true, updateLEDsFromDMX dmxData s2)
      else (false, s1)

/-- One iteration of `handleSACNPackets()`: early out unless
`sacnEnabled && wifiConnected`; processes an optionally received packet
(truncated to `E131_PACKET_SIZE` bytes) and on acceptance records the
receive time and raises `sacnActive` / `sacnPriority`; finally clears
both flags when more than 30000 ms have passed since the last accepted
packet. -/
def handleSACNPackets (now : Nat) (p : Option (List Nat)) (s : PolyState) : PolyState :=
  if !s.sacnEnabled || !s.wifiConnected then s
  else
    let s1 :=
      match p with
      | none => s
      | some pkt =>
        let r := processSACNPacket (pkt.take E131_PACKET_SIZE) s
        if r.1 then { r.2 with lastSacnPacket := now, sacnActive := true, sacnPriority := true }
        else r.2
    if s1.sacnActive && 30000 < now - s1.lastSacnPacket then
      { s1 with sacnActive := false, sacnPriority := false }
    else s1

/-- `setAllLEDColor(r, g, b)`: ignored while `sacnPriority && sacnActive`;
otherwise sets `currentColor` and fills all three strips. -/
def setAllLEDColor (r g b : Int) (s : PolyState) : PolyState :=
  if s.sacnPriority && s.sacnActive then s
  else
    let c := mkCRGB r g b
    { s with currentColor := c
             leds1 := List.replicate NUM_LEDS_1 c
             leds2 := List.replicate NUM_LEDS_2 c
             leds3 := List.replicate NUM_LEDS_3 c }

/-- `setStripColor(stripNum, r, g, b)`: ignored while
`sacnPriority && sacnActive`; otherwise fills the selected strip. -/
def setStripColor (stripNum : Int) (r g b : Int) (s : PolyState) : PolyState :=
  if s.sacnPriority && s.sacnActive then s
  else
    let c := mkCRGB r g b
    if stripNum = 1 then { s with leds1 := List.replicate NUM_LEDS_1 c }
    else if stripNum = 2 then { s with leds2 := List.replicate NUM_LEDS_2 c }
    else if stripNum = 3 then { s with leds3 := List.replicate NUM_LEDS_3 c }
    else s

/-- `setLEDBrightness(brightness)`: stores `constrain(brightness, 0, 255)`
(no sACN priority check). -/
def setLEDBrightness (brightness : Int) (s : PolyState) : PolyState :=
  { s with ledBrightness := constrain brightness 0 255 }

/-- `setIndividualLED(ledIndex, r, g, b)`: bounds-checks the global index
against `TOTAL_LEDS` and writes the addressed pixel of the owning strip
(note: no sACN priority check in the source). -/
def setIndividualLED (ledIndex : Int) (r g b : Int) (s : PolyState) : PolyState :=
  if 0 ≤ ledIndex ∧ ledIndex < (TOTAL_LEDS : Int) then
    let c := mkCRGB r g b
    let i := ledIndex.toNat
    if i < NUM_LEDS_1 then { s with leds1 := s.leds1.set i c }
    else if i < NUM_LEDS_1 + NUM_LEDS_2 then { s with leds2 := s.leds2.set (i - NUM_LEDS_1) c }
    else { s with leds3 := s.leds3.set (i - NUM_LEDS_1 - NUM_LEDS_2) c }
  else s

end Poly

namespace Tri

/-- `NUM_LEDS` (the 3 front LEDs of the tricorder). -/
def NUM_LEDS : Nat := 3

/-- `FRAME_DELAY_MS` (~30 fps). -/
def FRAME_DELAY_MS : Nat := 33

/-- The `LEDCommand` message struct (tag plus the fields each variant
reads).  The `PULSE_EFFECT` variant exists in the source; its handler is
a real-time, floating-point sine loop, kept abstract here (no claim
depends on its pixel values). -/
inductive LEDCommand where
  | setColor (r g b : Int)
  | setBrightness (brightness : Int)
  | setIndividual (ledIndex r g b : Int)
  | scannerEffect (r g b delayMs : Int)
  | pulseEffect (r g b duration : Int)
  deriving DecidableEq, Repr

/-- The LED task's state: the pixel buffer, stored brightness, current
color, and a ghost log of the pixel buffer at every `FastLED.show()`
call (what the hardware actually displays over time). -/
structure LedState where
  leds : List Color
  ledBrightness : Int
  currentColor : Color
  shows : List (List Color)
  deriving DecidableEq, Repr

/-- The list of LED indices lit by the `SCANNER_EFFECT` backward sweep
`for (int i = NUM_LEDS - 2; i >= 1; i--)`: the descending list
`[m, m-1, ..., 1]` for `m = NUM_LEDS - 2`. -/
def downFrom : Nat → List Nat
  | 0 => []
  | m + 1 => (m + 1) :: downFrom m

/-- All LED indices lit by `SCANNER_EFFECT`, in order: the forward sweep
`0 .. n-1` followed by the backward sweep `n-2 .. 1`. -/
def scanVisits (n : Nat) : List Nat := List.range n ++ downFrom (n - 2)

/-- One step of the scanner loop body: blank the strip, light pixel `i`,
`FastLED.show()`. -/
def scanStep (c : Color) (s : LedState) (i : Nat) : LedState :=
  let frame := (List.replicate NUM_LEDS ((0, 0, 0) : Color)).set i c
  { s with leds := frame, shows := s.shows ++ [frame] }

/-- The body of one `xQueueReceive` iteration of `ledTask`: execute one
`LEDCommand` on the LED state (each case ends in a `FastLED.show()`,
logged in `shows`). -/
def ledTaskStep (cmd : LEDCommand) (s : LedState) : LedState :=
  match cmd with
  | .setColor r g b =>
    let c := mkCRGB r g b
    let l := List.replicate NUM_LEDS c
    { s with currentColor := c, leds := l, shows := s.shows ++ [l] }
  | .setBrightness brightness =>
    { s with ledBrightness := constrain brightness 0 255, shows := s.shows ++ [s.leds] }
  | .setIndividual ledIndex r g b =>
    if 0 ≤ ledIndex ∧ ledIndex < (NUM_LEDS : Int) then
      let l := s.leds.set ledIndex.toNat (mkCRGB r g b)
      { s with leds := l, shows := s.shows ++ [l] }
    else s
  | .scannerEffect r g b _ =>
    (scanVisits NUM_LEDS).foldl (scanStep (mkCRGB r g b)) s
  | .pulseEffect _ _ _ _ => s

/-- The `VideoCommand` message struct. -/
inductive VideoCommand where
  | playVideo (filename : String) (loop : Bool)
  | displayImage (filename : String)
  | stopVideo
  deriving DecidableEq, Repr

/-- A UDP response datagram sent back to the command sender.
`json commandId result` models `sendResponse`; the other variants model
the bespoke reply datagrams of the remaining recognized actions. -/
inductive Resp where
  | json (commandId result : String)
  | discovery (commandId : String)
  | status (commandId : String)
  | battery (commandId : String)
  | debugAdc (commandId : String)
  deriving DecidableEq, Repr

/-- The fields of a parsed JSON command datagram that the tricorder
dispatcher reads.  A missing field is `none`; ArduinoJson yields `0`
(`""`, `false`) when such a field is read, which the dispatcher models
with `Option.getD`.  `parameters` is the optional nested object used by
the video commands. -/
structure JsonCmd where
  action : String
  commandId : String
  r : Option Int := none
  g : Option Int := none
  b : Option Int := none
  filename : Option String := none
  loop : Option Bool := none
  paramsFilename : Option String := none
  paramsLoop : Option Bool := none
  hasParams : Bool := false
  deriving DecidableEq, Repr

/-- `xQueueSend` with capacity `cap`: appends if there is room (FIFO),
returns the queue and whether the send succeeded. -/
def queueSend {α : Type} (cap : Nat) (q : List α) (x : α) : List α × Bool :=
  if q.length < cap then (q ++ [x], true) else (q, false)

/-- `processNetworkCommand` after a successful JSON parse: dispatch on
`action`, read fields with ArduinoJson defaulting, push LED / video
commands onto their queues (capacities 10 and 5) and emit responses.
Unknown actions produce no traffic.  Returns the updated LED queue,
video queue and the list of response datagrams sent. -/
def processNetworkCommand (j : JsonCmd) (ledQ : List LEDCommand) (vidQ : List VideoCommand) :
    List LEDCommand × List VideoCommand × List Resp :=
  if j.action = "discovery" then
    (ledQ, vidQ, [.discovery j.commandId])
  else if j.action = "set_led_color" then
    let cmd := LEDCommand.setColor (j.r.getD 0) (j.g.getD 0) (j.b.getD 0)
    let q := queueSend 10 ledQ cmd
    (q.1, vidQ, [.json j.commandId "LED color set"])
  else if j.action = "set_builtin_led" then
    (ledQ, vidQ, [.json j.commandId "Built-in LED color set"])
  else if j.action = "play_video" then
    let filename := if j.hasParams then j.paramsFilename.getD "" else j.filename.getD ""
    let loop := if j.hasParams then j.paramsLoop.getD false else j.loop.getD false
    let q := queueSend 5 vidQ (.playVideo (filename.take 63) loop)
    (ledQ, q.1, [.json j.commandId (if q.2 then "Video playback started" else "Failed to queue video command")])
  else if j.action = "display_image" then
    let filename := ((if j.hasParams then j.paramsFilename else none).or j.filename).getD ""
    let q := queueSend 5 vidQ (.displayImage (filename.take 63))
    (ledQ, q.1, [.json j.commandId (if q.2 then "Image command queued" else "Failed to queue image command")])
  else if j.action = "status" then
    (ledQ, vidQ, [.status j.commandId])
  else if j.action = "get_battery" then
    (ledQ, vidQ, [.battery j.commandId])
  else if j.action = "debug_adc" then
    (ledQ, vidQ, [.debugAdc j.commandId])
  else
    (ledQ, vidQ, [])

/-- What happens when the video task tries to open and decode one frame
file from the SD card: the file fails to open (`openFail`), its encoded
size exceeds the decode buffer (`tooLarge`), the JPEG library rejects it
(`badJpeg`, covering `openRAM`, zero-byte reads and `decode` failures),
or it decodes and is blitted (`ok`). -/
inductive FrameResult where
  | openFail
  | tooLarge
  | badJpeg
  | ok
  deriving DecidableEq, Repr

/-- The video task's playback state.  `frames` models `frameFiles`
together with the fixed open/decode outcome of every listed file;
`rendered` is a ghost log of the frame indices that were successfully
decoded and displayed. -/
structure VState where
  videoPlaying : Bool
  videoLooping : Bool
  currentFrame : Nat
  totalFrames : Nat
  frames : List FrameResult
  isAnimatedSequence : Bool
  lastFrameTime : Nat
  rendered : List Nat
  deriving DecidableEq, Repr

/-- `stopVideo()`: when playing, clears all playback state (including
the frame file list). -/
def stopVideo (s : VState) : VState :=
  if s.videoPlaying then
    { s with videoPlaying := false, videoLooping := false, currentFrame := 0,
             totalFrames := 0, isAnimatedSequence := false, frames := [] }
  else s

/-- `showVideoFrame()`: renders the frame at `currentFrame`.  On a file
that fails to open, advances `currentFrame` itself ("skip this frame")
and applies end-of-sequence loop/stop handling; on an oversized or
undecodable file, returns without advancing; on success, logs the
rendered frame index. -/
def showVideoFrame (s : VState) : VState :=
  if !s.videoPlaying || s.totalFrames == 0 then s
  else if s.totalFrames ≤ s.currentFrame then s
  else
    match s.frames.getD s.currentFrame .openFail with
    | .openFail =>
      let c := s.currentFrame + 1
      if s.totalFrames ≤ c then
        if s.videoLooping then { s with currentFrame := 0 }
        else stopVideo { s with currentFrame := c }
      else { s with currentFrame := c }
    | .tooLarge => s
    | .badJpeg => s
    | .ok => { s with rendered := s.rendered ++ [s.currentFrame] }

/-- `updateVideoPlayback()` at time `now`: single images render once;
animated sequences render a frame when `FRAME_DELAY_MS` has elapsed,
then advance `currentFrame` and loop or stop at the end. -/
def updateVideoPlayback (now : Nat) (s : VState) : VState :=
  if !s.videoPlaying || s.totalFrames == 0 then s
  else if !s.isAnimatedSequence then
    if s.currentFrame == 0 then { showVideoFrame s with currentFrame := 1 } else s
  else if FRAME_DELAY_MS ≤ now - s.lastFrameTime then
    let s1 := showVideoFrame s
    let s2 := { s1 with lastFrameTime := now, currentFrame := s1.currentFrame + 1 }
    if s2.totalFrames ≤ s2.currentFrame then
      if s2.videoLooping then { s2 with currentFrame := 0 }
      else stopVideo s2
    else s2
  else s

/-- Runs `updateVideoPlayback` once per listed tick time, in order. -/
def runTicks : List Nat → VState → VState
  | [], s => s
  | t :: ts, s => runTicks ts (updateVideoPlayback t s)

/-- A file or directory name as a byte string (the bytes of the C
string, without the terminating NUL). -/
abbrev Name := List Nat

/-- `strcmp`-style lexicographic "less than" on byte strings, the order
behind Arduino `String::operator>` used by the frame sort. -/
def strLt : Name → Name → Bool
  | [], [] => false
  | [], _ :: _ => true
  | _ :: _, [] => false
  | a :: as, b :: bs => if a < b then true else if b < a then false else strLt as bs

/-- Non-strict byte-string order: `a` sorts no later than `b`. -/
def strLe (a b : Name) : Prop := strLt b a = false

/-- One directory entry as seen by `openNextFile`: its name and whether
it is a subdirectory. -/
structure DirEntry where
  name : Name
  isDir : Bool
  deriving DecidableEq, Repr

/-- The bytes of ".jpg". -/
def extJpgLower : Name := [46, 106, 112, 103]

/-- The bytes of ".jpeg". -/
def extJpegLower : Name := [46, 106, 112, 101, 103]

/-- The bytes of ".JPG". -/
def extJpgUpper : Name := [46, 74, 80, 71]

/-- The bytes of ".JPEG". -/
def extJpegUpper : Name := [46, 74, 80, 69, 71]

/-- The frame-file filter of `playVideo`: not a directory, and the name
ends with one of the four accepted JPEG extensions. -/
def isJpegEntry (e : DirEntry) : Bool :=
  !e.isDir &&
    (extJpgLower.isSuffixOf e.name || extJpegLower.isSuffixOf e.name ||
     extJpgUpper.isSuffixOf e.name || extJpegUpper.isSuffixOf e.name)

/-- The inner loop (index `j`) of the frame sort at a fixed outer index
`i`: walking the tail with the current value `h` of `frameFiles[i]`,
swapping whenever `frameFiles[i] > frameFiles[j]`.  Returns the final
value left at position `i` and the tail contents after the pass. -/
def sortPass (h : Name) : List Name → Name × List Name
  | [] => (h, [])
  | y :: ys =>
    if strLt y h then
      let p := sortPass y ys
      (p.1, h :: p.2)
    else
      let p := sortPass h ys
      (p.1, y :: p.2)

/-- The outer loop (index `i`) of the frame sort, fuelled by the list
length: each iteration runs one `sortPass` and fixes one position. -/
def sortLoop : Nat → List Name → List Name
  | 0, l => l
  | _ + 1, [] => []
  | n + 1, x :: xs =>
    let p := sortPass x xs
    p.1 :: sortLoop n p.2

/-- The in-place double-loop sort of `playVideo`
(`if (frameFiles[i] > frameFiles[j]) swap`), as a function on the
collected frame list. -/
def exchangeSort (l : List Name) : List Name := sortLoop l.length l

/-- The directory branch of `playVideo`: collect the names of JPEG files
(in enumeration order, at most 30), prefix each with `folderPath + "/"`,
and sort the resulting list. -/
def playVideoFrames (folderPath : Name) (entries : List DirEntry) : List Name :=
  exchangeSort ((((entries.filter isJpegEntry).take 30).map
    fun e => folderPath ++ [47] ++ e.name))

end Tri

/-! ### Concrete fixtures used by counterexamples and witnesses -/

/-- A polyinoculator state as configured by the default configuration:
universe 1, start address 1, all LEDs dark, sACN enabled but not yet
active, WiFi up. -/
def s0 : Poly.PolyState :=
  { leds1 := List.replicate 14 (0, 0, 0), leds2 := List.replicate 8 (0, 0, 0)
    leds3 := List.replicate 8 (0, 0, 0), currentColor := (0, 0, 0), ledBrightness := 128
    wifiConnected := true, sacnEnabled := true, sacnActive := false, sacnPriority := false
    lastSacnPacket := 0, sacnSequence := 0, lastSacnData := List.replicate 512 0
    sacnUniverse := 1, sacnStartAddress := 1 }

/-- `s0` with sACN priority currently active. -/
def s1 : Poly.PolyState := { s0 with sacnActive := true, sacnPriority := true }

/-- A valid 217-byte sACN packet for universe 1: correct identifier at
offset 4, sequence 0 at offset 111, universe 1 at offsets 113-114, and a
91-byte DMX payload from offset 126 whose first channel is 7.  Its
payload covers channels 1..91, enough for start address 1 and 30 RGB
fixtures. -/
def pktA : List Nat :=
  List.replicate 4 0 ++ Poly.ACN_PACKET_IDENTIFIER ++ List.replicate 95 0 ++
  [0] ++ [0] ++ [0, 1] ++ List.replicate 11 0 ++ ([7] ++ List.replicate 90 0)

/-- Like `pktA` but with a 90-byte payload (216 bytes total): exactly
`start_address - 1 + 3 * TOTAL_LEDS` payload bytes for `s0`. -/
def pktB : List Nat :=
  List.replicate 4 0 ++ Poly.ACN_PACKET_IDENTIFIER ++ List.replicate 95 0 ++
  [0] ++ [0] ++ [0, 1] ++ List.replicate 11 0 ++ List.replicate 90 0

/-- Like `pktA` but with the first identifier byte corrupted. -/
def pktC : List Nat :=
  List.replicate 4 0 ++ (66 :: Poly.ACN_PACKET_IDENTIFIER.tail) ++ List.replicate 95 0 ++
  [0] ++ [0] ++ [0, 1] ++ List.replicate 11 0 ++ ([7] ++ List.replicate 90 0)

/-- A playing, non-looping 3-frame animation whose middle frame file
fails to open. -/
def v0 : Tri.VState :=
  { videoPlaying := true, videoLooping := false, currentFrame := 0
    totalFrames := 3, frames := [.ok, .openFail, .ok], isAnimatedSequence := true
    lastFrameTime := 0, rendered := [] }

/-- `v0` with the middle frame undecodable (opens, but JPEG decode
fails) instead of unopenable. -/
def v1 : Tri.VState := { v0 with frames := [.ok, .badJpeg, .ok] }

/-- A fresh tricorder LED task state: all pixels dark, default
brightness, empty show log. -/
def ls0 : Tri.LedState :=
  { leds := List.replicate 3 (0, 0, 0), ledBrightness := 128
    currentColor := (0, 0, 0), shows := [] }

/-! ### Claim C10 -/

/-- Claim C10: after any `SET_BRIGHTNESS`/`setLEDBrightness` command,
including a negative level or one above 255, the stored brightness (in
both the tricorder LED task and the polyinoculator handler) equals the
level clamped to [0, 255]; hence the brightness state variable is in
0..255 after every such operation. -/
theorem set_brightness_clamped (level : Int) (s : Tri.LedState) (sp : Poly.PolyState) :
    (Tri.ledTaskStep (.setBrightness level) s).ledBrightness = min 255 (max 0 level) ∧
    0 ≤ (Tri.ledTaskStep (.setBrightness level) s).ledBrightness ∧
    (Tri.ledTaskStep (.setBrightness level) s).ledBrightness ≤ 255 ∧
    (Poly.setLEDBrightness level sp).ledBrightness = min 255 (max 0 level) ∧
    0 ≤ (Poly.setLEDBrightness level sp).ledBrightness ∧
    (Poly.setLEDBrightness level sp).ledBrightness ≤ 255 := by
  simp only [Tri.ledTaskStep, Poly.setLEDBrightness, constrain]
  refine ⟨?_, ?_, ?_, ?_, ?_, ?_⟩ <;> (split_ifs <;> omega)

/-! ### Claim C9 -/

/-- Claim C9, counterexample: a recognized action (`set_led_color`) with
all of its required numeric fields missing is not rejected: the command
is queued to the LED task with the defaulted values (0, 0, 0) and the
sender receives the normal success response, not a failure. -/
theorem set_led_color_missing_fields_executes :
    Tri.processNetworkCommand { action := "set_led_color", commandId := "cmd-1" } [] [] =
      ([.setColor 0 0 0], [], [.json "cmd-1" "LED color set"]) := by rfl

/-- Claim C9, amended: the tricorder dispatcher performs no validation of
numeric fields.  For a `set_led_color` command, each of `r`, `g`, `b` is
read with ArduinoJson defaulting (missing field = 0, out-of-range values
passed through unchanged), the resulting command is queued, and the
response is always the success acknowledgment. -/
theorem set_led_color_defaults_missing_fields (r g b : Option Int) (cid : String) :
    Tri.processNetworkCommand { action := "set_led_color", commandId := cid, r := r, g := g, b := b } [] [] =
      ([.setColor (r.getD 0) (g.getD 0) (b.getD 0)], [], [.json cid "LED color set"]) := by
  rfl

/-! ### Claim C7 -/

/-- Claim C7, evaluation at the failing input: in the non-looping
3-frame animation `v0` whose middle frame fails to open, the scheduler
advances the cursor twice (once in `showVideoFrame`, once more in
`updateVideoPlayback`), so the final frame (index 2) is never attempted:
only frame 0 is ever rendered, although playback does reach the stopped
state.  The contrast case `v1`, where the middle frame opens but fails
to decode, skips exactly one frame as the claim describes and renders
frames 0 and 2. -/
theorem openfail_skips_following_frame :
    (Tri.runTicks [100, 200, 300] v0).rendered = [0] ∧
    (Tri.runTicks [100, 200, 300] v0).videoPlaying = false ∧
    2 ∉ (Tri.runTicks [100, 200, 300] v0).rendered ∧
    (Tri.runTicks [100, 200, 300, 400] v1).rendered = [0, 2] ∧
    (Tri.runTicks [100, 200, 300, 400] v1).videoPlaying = false := by decide

/-! ### sACN receiver lemmas (claims C1, C3, C4, C5) -/

/-- A rejected packet leaves the whole state unchanged except possibly
the recorded sequence byte. -/
theorem processSACNPacket_reject {p : List Nat} {s s2 : Poly.PolyState}
    (h : Poly.processSACNPacket p s = (false, s2)) :
    s2 = { s with sacnSequence := s2.sacnSequence } := by
  simp only [Poly.processSACNPacket] at h
  split_ifs at h <;> rw [Prod.mk.injEq] at h <;> obtain ⟨hb, hs⟩ := h
  all_goals first
  | exact Bool.noConfusion hb
  | (subst hs; rfl)

/-- Claim C5: a DMX packet whose 12-byte protocol identifier differs
from `ACN_PACKET_IDENTIFIER` in even one byte is rejected with the state
fully unchanged, and an sACN handler iteration that receives such a
packet is indistinguishable from one that receives no packet at all (in
particular it triggers no priority-state change). -/
theorem dmx_identifier_mismatch_rejected (p : List Nat) (s : Poly.PolyState) (now : Nat)
    (hid : (p.drop 4).take 12 ≠ Poly.ACN_PACKET_IDENTIFIER) :
    Poly.processSACNPacket p s = (false, s) ∧
    Poly.handleSACNPackets now (some p) s = Poly.handleSACNPackets now none s := by
  have htr : ((p.take Poly.E131_PACKET_SIZE).drop 4).take 12 = (p.drop 4).take 12 := by
    rw [List.drop_take, List.take_take]
    norm_num [Poly.E131_PACKET_SIZE]
  have hmain : ∀ q : List Nat, (q.drop 4).take 12 ≠ Poly.ACN_PACKET_IDENTIFIER →
      Poly.processSACNPacket q s = (false, s) := by
    intro q hq
    unfold Poly.processSACNPacket
    split_ifs <;> simp_all
  refine ⟨hmain p hid, ?_⟩
  unfold Poly.handleSACNPackets
  simp [hmain (p.take Poly.E131_PACKET_SIZE) (htr ▸ hid)]

/-- Claim C5 witness: the concrete corrupted-identifier packet `pktC` is
rejected and leaves the handler state exactly as if no packet arrived. -/
theorem dmx_identifier_mismatch_rejected_witness :
    Poly.processSACNPacket pktC s0 = (false, s0) ∧
    Poly.handleSACNPackets 1000 (some pktC) s0 = Poly.handleSACNPackets 1000 none s0 :=
  dmx_identifier_mismatch_rejected pktC s0 1000 (by decide)

/-! ### Claim C3 -/

/-- Claim C3: if `sacnActive` (DMX priority) was raised and the handler
iteration at time `now` sees no accepted frame (either no packet, or a
packet that fails validation) while more than 30000 ms have passed since
the last accepted frame, the per-iteration time check clears both
`sacnActive` and `sacnPriority`, and a subsequent otherwise-valid UDP
`set_led_color` command takes full effect on the LEDs. -/
theorem dmx_timeout_restores_udp_control (s : Poly.PolyState) (now : Nat)
    (p : Option (List Nat)) (r g b : Int)
    (hen : s.sacnEnabled = true) (hwifi : s.wifiConnected = true)
    (hact : s.sacnActive = true) (htime : 30000 < now - s.lastSacnPacket)
    (hrej : ∀ pkt, p = some pkt →
      (Poly.processSACNPacket (pkt.take Poly.E131_PACKET_SIZE) s).1 = false) :
    (Poly.handleSACNPackets now p s).sacnActive = false ∧
    (Poly.handleSACNPackets now p s).sacnPriority = false ∧
    (Poly.setAllLEDColor r g b (Poly.handleSACNPackets now p s)).leds1 =
      List.replicate Poly.NUM_LEDS_1 (mkCRGB r g b) ∧
    (Poly.setAllLEDColor r g b (Poly.handleSACNPackets now p s)).leds2 =
      List.replicate Poly.NUM_LEDS_2 (mkCRGB r g b) ∧
    (Poly.setAllLEDColor r g b (Poly.handleSACNPackets now p s)).leds3 =
      List.replicate Poly.NUM_LEDS_3 (mkCRGB r g b) ∧
    (Poly.setAllLEDColor r g b (Poly.handleSACNPackets now p s)).currentColor = mkCRGB r g b := by
  have key : (Poly.handleSACNPackets now p s).sacnActive = false ∧
      (Poly.handleSACNPackets now p s).sacnPriority = false := by
    unfold Poly.handleSACNPackets
    cases p with
    | none => simp [hen, hwifi, hact, htime]
    | some pkt =>
      have hr := hrej pkt rfl
      have hfields := processSACNPacket_reject
        (show Poly.processSACNPacket (pkt.take Poly.E131_PACKET_SIZE) s =
          (false, (Poly.processSACNPacket (pkt.take Poly.E131_PACKET_SIZE) s).2) by rw [← hr])
      have ha : (Poly.processSACNPacket (pkt.take Poly.E131_PACKET_SIZE) s).2.sacnActive
          = s.sacnActive := by rw [hfields]
      have hl : (Poly.processSACNPacket (pkt.take Poly.E131_PACKET_SIZE) s).2.lastSacnPacket
          = s.lastSacnPacket := by rw [hfields]
      simp [hen, hwifi, hr, ha, hl, hact, htime]
  refine ⟨key.1, key.2, ?_, ?_, ?_, ?_⟩ <;>
  · unfold Poly.setAllLEDColor
    simp [key.2]

/-- Claim C3 witness: concretely, from the DMX-active state `s1` with a
last accepted frame at time 0, an empty handler iteration at time 40000
clears the priority and a following `set_led_color(3,4,5)` fills all
three strips. -/
theorem dmx_timeout_restores_udp_control_witness :
    (Poly.handleSACNPackets 40000 none s1).sacnActive = false ∧
    (Poly.handleSACNPackets 40000 none s1).sacnPriority = false ∧
    (Poly.setAllLEDColor 3 4 5 (Poly.handleSACNPackets 40000 none s1)).leds1 =
      List.replicate Poly.NUM_LEDS_1 (mkCRGB 3 4 5) ∧
    (Poly.setAllLEDColor 3 4 5 (Poly.handleSACNPackets 40000 none s1)).leds2 =
      List.replicate Poly.NUM_LEDS_2 (mkCRGB 3 4 5) ∧
    (Poly.setAllLEDColor 3 4 5 (Poly.handleSACNPackets 40000 none s1)).leds3 =
      List.replicate Poly.NUM_LEDS_3 (mkCRGB 3 4 5) ∧
    (Poly.setAllLEDColor 3 4 5 (Poly.handleSACNPackets 40000 none s1)).currentColor =
      mkCRGB 3 4 5 :=
  dmx_timeout_restores_udp_control s1 40000 none 3 4 5 rfl rfl rfl (by decide)
    (fun _ h => Option.noConfusion h)

/-! ### Claim C4 -/

/-- Claim C4, amended: a frame that passes the minimum-length,
identifier and universe checks is accepted if and only if its DMX
payload is at least `start_address + 3 * TOTAL_LEDS` bytes long (one
byte more than the claimed `start_address - 1 + 3 * TOTAL_LEDS`), and
any rejected frame leaves the LED state untouched. -/
theorem dmx_payload_threshold_exact (p : List Nat) (s : Poly.PolyState)
    (hlen : Poly.E131_DATA_OFFSET ≤ p.length)
    (hid : (p.drop 4).take 12 = Poly.ACN_PACKET_IDENTIFIER)
    (huniv : p.getD Poly.E131_UNIVERSE_OFFSET 0 * 256 + p.getD (Poly.E131_UNIVERSE_OFFSET + 1) 0
      = s.sacnUniverse) :
    ((Poly.processSACNPacket p s).1 = true ↔
      s.sacnStartAddress + Poly.TOTAL_LEDS * 3 ≤ p.length - Poly.E131_DATA_OFFSET) ∧
    ((Poly.processSACNPacket p s).1 = false →
      (Poly.processSACNPacket p s).2.leds1 = s.leds1 ∧
      (Poly.processSACNPacket p s).2.leds2 = s.leds2 ∧
      (Poly.processSACNPacket p s).2.leds3 = s.leds3) := by
  constructor
  · simp only [Poly.processSACNPacket]
    split_ifs with h1 h2 h3 h4 <;> simp_all
    omega
  · intro hrej
    have hfields := processSACNPacket_reject
      (show Poly.processSACNPacket p s = (false, (Poly.processSACNPacket p s).2) by rw [← hrej])
    exact ⟨by rw [hfields], by rw [hfields], by rw [hfields]⟩

/-- Claim C4 witness: the concrete packet `pktA` (91 payload bytes,
start address 1) passes the first three checks and is accepted, matching
the exact threshold 1 + 90 ≤ 91. -/
theorem dmx_payload_threshold_exact_witness :
    ((Poly.processSACNPacket pktA s0).1 = true ↔
      s0.sacnStartAddress + Poly.TOTAL_LEDS * 3 ≤ pktA.length - Poly.E131_DATA_OFFSET) ∧
    (Poly.processSACNPacket pktA s0).1 = true :=
  ⟨(dmx_payload_threshold_exact pktA s0 (by decide) (by decide) (by decide)).1, by decide⟩

/-- Claim C4, counterexample: `pktB` passes the minimum-length,
identifier and universe checks and its DMX payload is exactly
`start_address - 1 + 3 * TOTAL_LEDS` = 90 bytes — the bound at which the
claim says the frame is accepted — yet the code rejects it (the source
requires `start_address + 3 * TOTAL_LEDS` = 91 bytes). -/
theorem dmx_payload_claimed_bound_rejected :
    Poly.E131_DATA_OFFSET ≤ pktB.length ∧
    (pktB.drop 4).take 12 = Poly.ACN_PACKET_IDENTIFIER ∧
    pktB.getD Poly.E131_UNIVERSE_OFFSET 0 * 256 + pktB.getD (Poly.E131_UNIVERSE_OFFSET + 1) 0
      = s0.sacnUniverse ∧
    pktB.length - Poly.E131_DATA_OFFSET
      = s0.sacnStartAddress - 1 + Poly.TOTAL_LEDS * 3 ∧
    (Poly.processSACNPacket pktB s0).1 = false := by decide

/-! ### Claim C1 -/

/-- Unfolds the three strip loops of `updateLEDsFromDMX` into a single
map over the 30 global fixture indices: fixture `i` reads payload bytes
`start_address - 1 + 3*i .. + 2` as R, G, B. -/
theorem updateLEDsFromDMX_ledsAll (dmx : List Nat) (s : Poly.PolyState)
    (hen : s.sacnEnabled = true) (hpri : s.sacnPriority = true) :
    Poly.ledsAll (Poly.updateLEDsFromDMX dmx s) =
      (List.range Poly.TOTAL_LEDS).map (fun i =>
        (dmx.getD (s.sacnStartAddress - 1 + 3 * i) 0,
         dmx.getD (s.sacnStartAddress - 1 + 3 * i + 1) 0,
         dmx.getD (s.sacnStartAddress - 1 + 3 * i + 2) 0)) := by
  unfold Poly.updateLEDsFromDMX Poly.ledsAll
  simp only [hen, hpri, Bool.not_true, Bool.or_self, Bool.false_eq_true, if_false]
  have h30 : Poly.TOTAL_LEDS = 14 + (8 + 8) := rfl
  rw [h30, List.range_add, List.range_add]
  simp only [List.map_append, List.map_map, List.append_assoc]
  unfold Poly.stripFromDMX Poly.NUM_LEDS_1 Poly.NUM_LEDS_2 Poly.NUM_LEDS_3
  refine congrArg₂ (· ++ ·) ?_ (congrArg₂ (· ++ ·) ?_ ?_)
  · apply List.map_congr_left
    intro i _
    have e0 : s.sacnStartAddress - 1 + i * 3 = s.sacnStartAddress - 1 + 3 * i := by ring
    rw [e0]
  · apply List.map_congr_left
    intro i _
    simp only [Function.comp]
    have e0 : s.sacnStartAddress - 1 + 14 * 3 + i * 3
        = s.sacnStartAddress - 1 + 3 * (14 + i) := by ring
    rw [e0]
  · apply List.map_congr_left
    intro i _
    simp only [Function.comp]
    have e0 : s.sacnStartAddress - 1 + 14 * 3 + 8 * 3 + i * 3
        = s.sacnStartAddress - 1 + 3 * (14 + (8 + i)) := by ring
    rw [e0]

/-- Claim C1, amended: for every accepted DMX frame for the configured
universe that is processed while sACN priority is already active (every
accepted frame except the first one after priority was down), the color
applied to fixture `i`, in strip order, equals the DMX payload bytes at
offsets `start_address - 1 + 3*i`, `.. + 1`, `.. + 2`, read as R, G, B.
The first accepted frame only raises the priority flag: `updateLEDsFromDMX`
returns without touching the LEDs because `sacnPriority` is still false
when it runs. -/
theorem dmx_decompose_offsets (p : List Nat) (s : Poly.PolyState)
    (hen : s.sacnEnabled = true) (hpri : s.sacnPriority = true)
    (hacc : (Poly.processSACNPacket p s).1 = true) :
    Poly.ledsAll (Poly.processSACNPacket p s).2 =
      (List.range Poly.TOTAL_LEDS).map (fun i =>
        ((p.drop Poly.E131_DATA_OFFSET).getD (s.sacnStartAddress - 1 + 3 * i) 0,
         (p.drop Poly.E131_DATA_OFFSET).getD (s.sacnStartAddress - 1 + 3 * i + 1) 0,
         (p.drop Poly.E131_DATA_OFFSET).getD (s.sacnStartAddress - 1 + 3 * i + 2) 0)) := by
  simp only [Poly.processSACNPacket] at hacc ⊢
  split_ifs at hacc ⊢
  exact updateLEDsFromDMX_ledsAll (p.drop Poly.E131_DATA_OFFSET) _ hen hpri

/-- Claim C1 witness: with priority already active (state `s1`), the
accepted packet `pktA` paints fixture 0 with payload bytes (7, 0, 0) and
every other fixture with (0, 0, 0), exactly the payload decomposition. -/
theorem dmx_decompose_offsets_witness :
    Poly.ledsAll (Poly.processSACNPacket pktA s1).2 =
      (List.range Poly.TOTAL_LEDS).map (fun i =>
        ((pktA.drop Poly.E131_DATA_OFFSET).getD (s1.sacnStartAddress - 1 + 3 * i) 0,
         (pktA.drop Poly.E131_DATA_OFFSET).getD (s1.sacnStartAddress - 1 + 3 * i + 1) 0,
         (pktA.drop Poly.E131_DATA_OFFSET).getD (s1.sacnStartAddress - 1 + 3 * i + 2) 0)) ∧
    Poly.ledsAll (Poly.processSACNPacket pktA s1).2 =
      (7, 0, 0) :: List.replicate 29 (0, 0, 0) :=
  ⟨dmx_decompose_offsets pktA s1 rfl rfl (by decide), by decide⟩

/-- Claim C1, counterexample: the claim fails as stated for the first
accepted frame.  Starting from `s0` (priority down), packet `pktA` is
accepted by `handleSACNPackets` (the priority flag is raised), yet the
LED state is left unchanged and differs from the payload decomposition
the claim mandates (fixture 0 should read (7, 0, 0)). -/
theorem first_accepted_dmx_frame_leaves_leds :
    (Poly.handleSACNPackets 1000 (some pktA) s0).sacnPriority = true ∧
    Poly.ledsAll (Poly.handleSACNPackets 1000 (some pktA) s0) = Poly.ledsAll s0 ∧
    Poly.ledsAll s0 ≠
      (List.range Poly.TOTAL_LEDS).map (fun i =>
        ((pktA.drop Poly.E131_DATA_OFFSET).getD (s0.sacnStartAddress - 1 + 3 * i) 0,
         (pktA.drop Poly.E131_DATA_OFFSET).getD (s0.sacnStartAddress - 1 + 3 * i + 1) 0,
         (pktA.drop Poly.E131_DATA_OFFSET).getD (s0.sacnStartAddress - 1 + 3 * i + 2) 0)) := by
  decide

/-! ### Claim C2 -/

/-- Claim C2, counterexample: while DMX priority is active (state `s1`),
a UDP `set_individual_led` command is not suppressed — `setIndividualLED`
has no priority check and repaints the addressed pixel, so LED state
changes during the priority window. -/
theorem set_individual_led_bypasses_priority :
    (s1.sacnPriority && s1.sacnActive) = true ∧
    (Poly.setIndividualLED 0 9 9 9 s1).leds1 ≠ s1.leds1 := by decide

/-- Claim C2, amended: while DMX priority is active, UDP `set_led_color`
and `set_strip_color` commands are parsed and acknowledged but have no
effect on the state, while a UDP `set_individual_led` command still
takes effect: an in-range index repaints the addressed pixel of its
strip. -/
theorem dmx_priority_suppresses_only_setcolor (s : Poly.PolyState) (n r g b idx : Int)
    (hpri : s.sacnPriority = true) (hact : s.sacnActive = true) :
    Poly.setAllLEDColor r g b s = s ∧
    Poly.setStripColor n r g b s = s ∧
    (0 ≤ idx → idx.toNat < Poly.NUM_LEDS_1 →
      (Poly.setIndividualLED idx r g b s).leds1 = s.leds1.set idx.toNat (mkCRGB r g b)) := by
  refine ⟨?_, ?_, ?_⟩
  · unfold Poly.setAllLEDColor
    simp [hpri, hact]
  · unfold Poly.setStripColor
    simp [hpri, hact]
  · intro h0 hlt
    unfold Poly.setIndividualLED
    have hrange : 0 ≤ idx ∧ idx < (Poly.TOTAL_LEDS : Int) := by
      constructor
      · exact h0
      · unfold Poly.NUM_LEDS_1 at hlt
        unfold Poly.TOTAL_LEDS
        omega
    rw [if_pos hrange, if_pos hlt]

/-- Claim C2 witness: instantiating the amended claim at state `s1` and
index 0 — the two full-strip commands are dropped and the individual-LED
command paints pixel 0. -/
theorem dmx_priority_suppresses_only_setcolor_witness :
    Poly.setAllLEDColor 1 2 3 s1 = s1 ∧
    Poly.setStripColor 2 1 2 3 s1 = s1 ∧
    (Poly.setIndividualLED 0 9 9 9 s1).leds1 = s1.leds1.set 0 (mkCRGB 9 9 9) :=
  have h := dmx_priority_suppresses_only_setcolor s1 2 1 2 3 0 rfl rfl
  ⟨h.1, h.2.1, by
    have h9 := dmx_priority_suppresses_only_setcolor s1 2 9 9 9 0 rfl rfl
    exact h9.2.2 (by decide) (by decide)⟩

/-! ### Claim C8 -/

/-- The backward sweep `downFrom m` counts each index in `1..m` exactly
once and never visits any other index. -/
theorem downFrom_count (m i : Nat) :
    (Tri.downFrom m).count i = if 1 ≤ i ∧ i ≤ m then 1 else 0 := by
  induction m with
  | zero =>
    simp only [Tri.downFrom, List.count_nil]
    split_ifs <;> omega
  | succ k ih =>
    rw [Tri.downFrom, List.count_cons, ih]
    split_ifs <;> simp_all <;> omega

/-- Claim C8: a `SCANNER_EFFECT` command makes the LED task display, in
order, one frame per entry of `scanVisits NUM_LEDS` with exactly that
pixel lit; the visit sequence is the forward sweep `0 .. NUM_LEDS-1`
followed by the backward sweep `NUM_LEDS-2 .. 1`, the forward sweep
lights every index exactly once, and the backward sweep lights every
interior index exactly once and the two endpoint indices zero times.
The effect runs inside the task's command handler, so it completes
before the next queued command is consumed. -/
theorem scanner_effect_sweep_counts (r g b d : Int) (s : Tri.LedState) (n i : Nat) :
    (Tri.ledTaskStep (.scannerEffect r g b d) s).shows =
      s.shows ++ (Tri.scanVisits Tri.NUM_LEDS).map
        (fun k => (List.replicate Tri.NUM_LEDS ((0, 0, 0) : Color)).set k (mkCRGB r g b)) ∧
    Tri.scanVisits n = List.range n ++ Tri.downFrom (n - 2) ∧
    (i < n → (List.range n).count i = 1) ∧
    (1 ≤ i → i ≤ n - 2 → (Tri.downFrom (n - 2)).count i = 1) ∧
    (Tri.downFrom (n - 2)).count 0 = 0 ∧
    (Tri.downFrom (n - 2)).count (n - 1) = 0 := by
  refine ⟨?_, rfl, ?_, ?_, ?_, ?_⟩
  · simp only [Tri.ledTaskStep]
    have hgen : ∀ (l : List Nat) (st : Tri.LedState),
        (l.foldl (Tri.scanStep (mkCRGB r g b)) st).shows =
          st.shows ++ l.map
            (fun k => (List.replicate Tri.NUM_LEDS ((0, 0, 0) : Color)).set k (mkCRGB r g b)) := by
      intro l
      induction l with
      | nil => intro st; simp
      | cons x xs ih =>
        intro st
        rw [List.foldl_cons, ih, List.map_cons]
        simp [Tri.scanStep]
    exact hgen _ s
  · intro hin
    exact List.count_eq_one_of_mem (List.nodup_range n) (List.mem_range.mpr hin)
  · intro h1 h2
    rw [downFrom_count]
    simp [h1, h2]
  · rw [downFrom_count]
    simp
  · rw [downFrom_count]
    split_ifs <;> first | rfl | omega

/-- Claim C8 witness: at the firmware's `NUM_LEDS = 3`, the visit
sequence is `[0, 1, 2, 1]`; index 1 is lit once forward and once
backward, and the endpoints 0 and 2 are not revisited backward. -/
theorem scanner_effect_sweep_counts_witness :
    (Tri.ledTaskStep (.scannerEffect 5 6 7 100) ls0).shows =
      [] ++ (Tri.scanVisits Tri.NUM_LEDS).map
        (fun k => (List.replicate Tri.NUM_LEDS ((0, 0, 0) : Color)).set k (mkCRGB 5 6 7)) ∧
    (List.range 3).count 1 = 1 ∧
    (Tri.downFrom (3 - 2)).count 1 = 1 ∧
    (Tri.downFrom (3 - 2)).count 0 = 0 ∧
    (Tri.downFrom (3 - 2)).count (3 - 1) = 0 ∧
    Tri.scanVisits 3 = [0, 1, 2, 1] := by
  have h := scanner_effect_sweep_counts 5 6 7 100 ls0 3 1
  exact ⟨h.1, h.2.2.1 (by decide), h.2.2.2.1 (by decide) (by decide),
    h.2.2.2.2.1, h.2.2.2.2.2, by decide⟩

/-! ### Claim C6: the frame sort -/

/-- `strLt` is irreflexive. -/
theorem strLt_irrefl (a : Tri.Name) : Tri.strLt a a = false := by
  induction a with
  | nil => rfl
  | cons x xs ih => simp [Tri.strLt, ih]

/-- `strLt` is transitive. -/
theorem strLt_trans {a b c : Tri.Name} (hab : Tri.strLt a b = true)
    (hbc : Tri.strLt b c = true) : Tri.strLt a c = true := by
  induction a generalizing b c with
  | nil =>
    cases c with
    | nil =>
      cases b with
      | nil => exact hab
      | cons y ys => exact Bool.noConfusion hbc
    | cons z zs => rfl
  | cons x xs ih =>
    cases b with
    | nil => exact Bool.noConfusion hab
    | cons y ys =>
      cases c with
      | nil => exact Bool.noConfusion hbc
      | cons z zs =>
        simp only [Tri.strLt] at hab hbc ⊢
        split_ifs at hab hbc ⊢
        all_goals try omega
        all_goals try rfl
        exact ih hab hbc

/-- Totality of `strLt`: two byte strings that are not `<`-related in
one direction are either `<`-related in the other or equal. -/
theorem strLt_total {a b : Tri.Name} (h : Tri.strLt a b = false) :
    Tri.strLt b a = true ∨ a = b := by
  induction a generalizing b with
  | nil =>
    cases b with
    | nil => exact Or.inr rfl
    | cons y ys => exact Bool.noConfusion h
  | cons x xs ih =>
    cases b with
    | nil => exact Or.inl rfl
    | cons y ys =>
      simp only [Tri.strLt] at h
      by_cases hxy : x < y
      · rw [if_pos hxy] at h
        exact Bool.noConfusion h
      · rw [if_neg hxy] at h
        by_cases hyx : y < x
        · left
          simp only [Tri.strLt]
          rw [if_pos hyx]
        · rw [if_neg hyx] at h
          have hxy2 : x = y := by omega
          rcases ih h with h2 | h2
          · left
            simp only [Tri.strLt]
            rw [if_neg hyx, if_neg hxy]
            exact h2
          · right
            rw [hxy2, h2]

/-- `strLe` is reflexive. -/
theorem strLe_refl (a : Tri.Name) : Tri.strLe a a := strLt_irrefl a

/-- `strLe` is transitive. -/
theorem strLe_trans {a b c : Tri.Name} (hab : Tri.strLe a b) (hbc : Tri.strLe b c) :
    Tri.strLe a c := by
  unfold Tri.strLe at *
  by_contra hca
  have hca' : Tri.strLt c a = true := by
    cases h : Tri.strLt c a with
    | false => exact absurd h hca
    | true => rfl
  rcases strLt_total hab with h | h
  · rcases strLt_total hbc with h2 | h2
    · have := strLt_trans (strLt_trans h h2) hca'
      rw [strLt_irrefl] at this
      exact Bool.noConfusion this
    · subst h2
      have := strLt_trans h hca'
      rw [strLt_irrefl] at this
      exact Bool.noConfusion this
  · subst h
    rcases strLt_total hbc with h2 | h2
    · have := strLt_trans h2 hca'
      rw [strLt_irrefl] at this
      exact Bool.noConfusion this
    · subst h2
      rw [strLt_irrefl] at hca'
      exact Bool.noConfusion hca'

/-- `strLe` is antisymmetric. -/
theorem strLe_antisymm {a b : Tri.Name} (hab : Tri.strLe a b) (hba : Tri.strLe b a) :
    a = b := by
  unfold Tri.strLe at *
  rcases strLt_total hba with h | h
  · rw [h] at hab; exact Bool.noConfusion hab
  · exact h

instance : IsAntisymm Tri.Name Tri.strLe := ⟨fun _ _ => strLe_antisymm⟩

instance : DecidableRel Tri.strLe := fun a b => by
  unfold Tri.strLe
  infer_instance

/-- One inner pass preserves the tail length. -/
theorem sortPass_length (h : Tri.Name) (l : List Tri.Name) :
    (Tri.sortPass h l).2.length = l.length := by
  induction l generalizing h with
  | nil => rfl
  | cons y ys ih =>
    simp only [Tri.sortPass]
    split_ifs <;> simp [ih]

/-- One inner pass permutes its inputs: the selected head together with
the new tail is a permutation of the old head and tail. -/
theorem sortPass_perm (h : Tri.Name) (l : List Tri.Name) :
    ((Tri.sortPass h l).1 :: (Tri.sortPass h l).2).Perm (h :: l) := by
  induction l generalizing h with
  | nil => exact List.Perm.refl _
  | cons y ys ih =>
    simp only [Tri.sortPass]
    split_ifs with hc
    · exact (List.Perm.swap h (Tri.sortPass y ys).1 (Tri.sortPass y ys).2).trans
        ((ih y).cons h)
    · exact ((List.Perm.swap y (Tri.sortPass h ys).1 (Tri.sortPass h ys).2).trans
        ((ih h).cons y)).trans (List.Perm.swap h y ys)

/-- After one inner pass, the selected head is a minimum: it sorts no
later than the value it replaced and than everything left in the tail. -/
theorem sortPass_min (h : Tri.Name) (l : List Tri.Name) :
    Tri.strLe (Tri.sortPass h l).1 h ∧
      ∀ z ∈ (Tri.sortPass h l).2, Tri.strLe (Tri.sortPass h l).1 z := by
  induction l generalizing h with
  | nil => exact ⟨strLe_refl h, by simp [Tri.sortPass]⟩
  | cons y ys ih =>
    simp only [Tri.sortPass]
    split_ifs with hc
    · obtain ⟨ihy, ihall⟩ := ih y
      have hmh : Tri.strLe (Tri.sortPass y ys).1 h := by
        unfold Tri.strLe at ihy ⊢
        cases hhm : Tri.strLt h (Tri.sortPass y ys).1 with
        | false => rfl
        | true =>
          have := strLt_trans hc hhm
          rw [this] at ihy
          exact Bool.noConfusion ihy
      refine ⟨hmh, ?_⟩
      intro z hz
      rcases List.mem_cons.mp hz with hz | hz
      · rw [hz]
        exact hmh
      · exact ihall z hz
    · obtain ⟨ihh, ihall⟩ := ih h
      have hle : Tri.strLe h y := by
        unfold Tri.strLe
        cases hyh : Tri.strLt y h with
        | false => rfl
        | true => exact absurd hyh (by simp [hc])
      refine ⟨ihh, ?_⟩
      intro z hz
      rcases List.mem_cons.mp hz with hz | hz
      · rw [hz]
        exact strLe_trans ihh hle
      · exact ihall z hz

/-- The fuelled outer loop returns a permutation of its input whenever
the fuel covers the list length. -/
theorem sortLoop_perm : ∀ (n : Nat) (l : List Tri.Name), l.length ≤ n →
    (Tri.sortLoop n l).Perm l := by
  intro n
  induction n with
  | zero =>
    intro l hl
    rw [List.length_eq_zero.mp (Nat.le_zero.mp hl)]
    exact List.Perm.refl _
  | succ k ih =>
    intro l hl
    match l with
    | [] => exact List.Perm.refl _
    | x :: xs =>
      rw [Tri.sortLoop]
      have hlen : (Tri.sortPass x xs).2.length ≤ k := by
        rw [sortPass_length]
        simpa using hl
      exact ((ih _ hlen).cons _).trans (sortPass_perm x xs)

/-- The fuelled outer loop sorts whenever the fuel covers the list
length. -/
theorem sortLoop_sorted : ∀ (n : Nat) (l : List Tri.Name), l.length ≤ n →
    (Tri.sortLoop n l).Sorted Tri.strLe := by
  intro n
  induction n with
  | zero =>
    intro l hl
    rw [List.length_eq_zero.mp (Nat.le_zero.mp hl)]
    exact List.sorted_nil
  | succ k ih =>
    intro l hl
    match l with
    | [] => exact List.sorted_nil
    | x :: xs =>
      rw [Tri.sortLoop]
      have hlen : (Tri.sortPass x xs).2.length ≤ k := by
        rw [sortPass_length]
        simpa using hl
      rw [List.sorted_cons]
      refine ⟨?_, ih _ hlen⟩
      intro b hb
      have hb2 : b ∈ (Tri.sortPass x xs).2 := (sortLoop_perm k _ hlen).mem_iff.mp hb
      exact (sortPass_min x xs).2 b hb2

/-- `exchangeSort` returns a permutation of its input. -/
theorem exchangeSort_perm (l : List Tri.Name) : (Tri.exchangeSort l).Perm l :=
  sortLoop_perm l.length l (Nat.le_refl _)

/-- `exchangeSort` sorts its input in ascending byte-string order. -/
theorem exchangeSort_sorted (l : List Tri.Name) : (Tri.exchangeSort l).Sorted Tri.strLe :=
  sortLoop_sorted l.length l (Nat.le_refl _)

/-- Claim C6: the frame list built by the directory branch of
`playVideo` is sorted ascending in byte-string (lexicographic) order and
is a permutation of the directory's JPEG entries (capped at 30, prefixed
with the folder path); consequently, for any two enumeration orders of a
directory with at most 30 JPEG files, the resulting playback list — and
hence the render order, which follows the list left to right — is the
same. -/
theorem play_animation_frames_sorted (folderPath : Tri.Name) (entries : List Tri.DirEntry) :
    (Tri.playVideoFrames folderPath entries).Sorted Tri.strLe ∧
    (Tri.playVideoFrames folderPath entries).Perm
      (((entries.filter Tri.isJpegEntry).take 30).map fun e => folderPath ++ [47] ++ e.name) ∧
    ∀ es2, entries.Perm es2 → (entries.filter Tri.isJpegEntry).length ≤ 30 →
      Tri.playVideoFrames folderPath entries = Tri.playVideoFrames folderPath es2 := by
  refine ⟨exchangeSort_sorted _, exchangeSort_perm _, ?_⟩
  intro es2 hperm hlen
  have hfil : (entries.filter Tri.isJpegEntry).Perm (es2.filter Tri.isJpegEntry) :=
    hperm.filter _
  have hlen2 : (es2.filter Tri.isJpegEntry).length ≤ 30 := by
    rw [← hfil.length_eq]
    exact hlen
  have ht1 : (entries.filter Tri.isJpegEntry).take 30 = entries.filter Tri.isJpegEntry :=
    List.take_of_length_le hlen
  have ht2 : (es2.filter Tri.isJpegEntry).take 30 = es2.filter Tri.isJpegEntry :=
    List.take_of_length_le hlen2
  have hmap : (((entries.filter Tri.isJpegEntry).take 30).map
        fun e => folderPath ++ [47] ++ e.name).Perm
      (((es2.filter Tri.isJpegEntry).take 30).map fun e => folderPath ++ [47] ++ e.name) := by
    rw [ht1, ht2]
    exact hfil.map _
  exact List.eq_of_perm_of_sorted
    ((exchangeSort_perm _).trans (hmap.trans (exchangeSort_perm _).symm))
    (exchangeSort_sorted _) (exchangeSort_sorted _)

/-- The directory entry "b.jpg". -/
def entB : Tri.DirEntry := { name := [98, 46, 106, 112, 103], isDir := false }

/-- The directory entry "a.jpg". -/
def entA : Tri.DirEntry := { name := [97, 46, 106, 112, 103], isDir := false }

/-- The directory entry "c.jpg". -/
def entC : Tri.DirEntry := { name := [99, 46, 106, 112, 103], isDir := false }

/-- The folder path "anim". -/
def animDir : Tri.Name := [97, 110, 105, 109]

/-- Claim C6 witness: enumerating `[b.jpg, a.jpg, c.jpg]` yields a
sorted frame list, the same list as the enumeration `[a.jpg, b.jpg,
c.jpg]`, and concretely the frames play as a.jpg, b.jpg, c.jpg. -/
theorem play_animation_frames_sorted_witness :
    (Tri.playVideoFrames animDir [entB, entA, entC]).Sorted Tri.strLe ∧
    Tri.playVideoFrames animDir [entB, entA, entC] =
      Tri.playVideoFrames animDir [entA, entB, entC] ∧
    Tri.playVideoFrames animDir [entB, entA, entC] =
      [animDir ++ [47] ++ entA.name, animDir ++ [47] ++ entB.name, animDir ++ [47] ++ entC.name] :=
  ⟨(play_animation_frames_sorted animDir [entB, entA, entC]).1,
   (play_animation_frames_sorted animDir [entB, entA, entC]).2.2 [entA, entB, entC]
     (List.Perm.swap entA entB [entC]) (by decide),
   by decide⟩
